import Mathlib

/-!
Verification development for the genetic course-scheduler
(`genetic_scheduler.py`).  The program's Python floats only ever hold
sums of the constant score weights 0.5, 0.4, 0.3, 0.25, 0.2, 0.1; the
embedding models all scores as exact rationals (`ℚ`), and models each
consumption of the pseudo-random generator as an explicit input (a raw
natural number `v`, with `rng.integers(0, n)` embedded as `v % n`, and
`rng.random()` embedded as a supplied rational in `[0, 1)`).
-/

namespace Sched

/-- A course activity: name, enrollment, and the two facilitator lists. -/
structure Activity where
  name : String
  enrollment : Nat
  preferred_facilitators : List String
  other_facilitators : List String
deriving DecidableEq

instance : Inhabited Activity := ⟨⟨"", 0, [], []⟩⟩

/-- A classroom: name and capacity. -/
structure Room where
  name : String
  capacity : Nat
deriving DecidableEq

instance : Inhabited Room := ⟨⟨"", 0⟩⟩

/-- One gene of a chromosome: the stored 4-tuple
`(activity_idx, room_idx, time_idx, facilitator_idx)`. -/
structure Gene where
  act : Nat
  room : Nat
  time : Nat
  fac : Nat
deriving DecidableEq

instance : Inhabited Gene := ⟨⟨0, 0, 0, 0⟩⟩

/-- A complete schedule (chromosome): the list of assignment tuples. -/
structure Schedule where
  assignments : List Gene
deriving DecidableEq

/-- The fixed activity catalog `ACTIVITIES`. -/
def ACTIVITIES : List Activity := [
  ⟨"SLA101A", 40, ["Glen", "Lock", "Banks"], ["Numen", "Richards", "Shaw", "Singer"]⟩,
  ⟨"SLA101B", 35, ["Glen", "Lock", "Banks"], ["Numen", "Richards", "Shaw", "Singer"]⟩,
  ⟨"SLA191A", 45, ["Glen", "Lock", "Banks"], ["Numen", "Richards", "Shaw", "Singer"]⟩,
  ⟨"SLA191B", 40, ["Glen", "Lock", "Banks"], ["Numen", "Richards", "Shaw", "Singer"]⟩,
  ⟨"SLA201", 60, ["Glen", "Banks", "Zeldin", "Lock", "Singer"], ["Richards", "Uther", "Shaw"]⟩,
  ⟨"SLA291", 50, ["Glen", "Banks", "Zeldin", "Lock", "Singer"], ["Richards", "Uther", "Shaw"]⟩,
  ⟨"SLA303", 25, ["Glen", "Zeldin"], ["Banks"]⟩,
  ⟨"SLA304", 20, ["Singer", "Uther"], ["Richards"]⟩,
  ⟨"SLA394", 15, ["Tyler", "Singer"], ["Richards", "Zeldin"]⟩,
  ⟨"SLA449", 30, ["Tyler", "Zeldin", "Uther"], ["Zeldin", "Shaw"]⟩,
  ⟨"SLA451", 90, ["Lock", "Banks", "Zeldin"], ["Tyler", "Singer", "Shaw", "Glen"]⟩]

/-- The fixed room catalog `ROOMS`. -/
def ROOMS : List Room := [
  ⟨"Beach 201", 18⟩,
  ⟨"Beach 301", 25⟩,
  ⟨"Frank 119", 95⟩,
  ⟨"Loft 206", 55⟩,
  ⟨"Loft 310", 48⟩,
  ⟨"James 325", 110⟩,
  ⟨"Roman 201", 40⟩,
  ⟨"Roman 216", 80⟩,
  ⟨"Slater 003", 32⟩]

/-- The fixed time-slot catalog `TIMES`. -/
def TIMES : List String := ["10 AM", "11 AM", "12 PM", "1 PM", "2 PM", "3 PM"]

/-- The fixed facilitator catalog `FACILITATORS`. -/
def FACILITATORS : List String :=
  ["Lock", "Glen", "Banks", "Richards", "Shaw", "Singer", "Uther", "Tyler", "Numen", "Zeldin"]

/-- `POPULATION_SIZE` constant. -/
def POPULATION_SIZE : Nat := 500

/-- `TOURNAMENT_SIZE` constant. -/
def TOURNAMENT_SIZE : Nat := 5

/-- `MIN_GENERATIONS` constant. -/
def MIN_GENERATIONS : Nat := 100

/-- `len(time_room_activities[(t, r)])`: how many assignments occupy time `t` and room `r`. -/
def timeRoomCount (s : Schedule) (t r : Nat) : Nat :=
  (s.assignments.map (fun g => if g.time = t ∧ g.room = r then 1 else 0)).sum

/-- `len(time_facilitator_activities[(t, f)])`: how many assignments give facilitator `f`
an activity at time `t`. -/
def timeFacCount (s : Schedule) (t f : Nat) : Nat :=
  (s.assignments.map (fun g => if g.time = t ∧ g.fac = f then 1 else 0)).sum

/-- `facilitator_total_activities[f]`: total number of activities assigned to facilitator `f`. -/
def facLoad (s : Schedule) (f : Nat) : Nat :=
  (s.assignments.map (fun g => if g.fac = f then 1 else 0)).sum

/-- `sorted(facilitator_time_slots[f])`: the distinct time indices used by facilitator `f`,
in ascending order. -/
def facTimes (s : Schedule) (f : Nat) : List Nat :=
  List.insertionSort (· ≤ ·) (((s.assignments.filter (fun g => g.fac = f)).map
    (fun g => g.time)).dedup)

/-- The distinct facilitator indices appearing in the schedule
(the keys of `facilitator_time_slots`). -/
def facList (s : Schedule) : List Nat :=
  (s.assignments.map (fun g => g.fac)).dedup

/-- `room_name.startswith("Roman") or room_name.startswith("Beach")`. -/
def isRomanBeach (name : String) : Bool :=
  name.startsWith "Roman" || name.startsWith "Beach"

/-- Name of the room with index `r`. -/
def roomName (r : Nat) : String := (ROOMS.getD r default).name

/-- For the activities of facilitator `f` at time `t`, whether each one's room is in the
Roman/Beach building group (one entry per matching assignment). -/
def rbList (s : Schedule) (t f : Nat) : List Bool :=
  (s.assignments.filter (fun g => g.time = t ∧ g.fac = f)).map
    (fun g => isRomanBeach (roomName g.room))

/-- Room-conflict term: `−0.5` when the gene's (time, room) slot is shared. -/
def roomConflictScore (s : Schedule) (g : Gene) : ℚ :=
  if 1 < timeRoomCount s g.time g.room then -0.5 else 0

/-- Room-size term for the activity at position `i` with gene `g`. -/
def roomSizeScore (i : Nat) (g : Gene) : ℚ :=
  let activity := ACTIVITIES.getD i default
  let room := ROOMS.getD g.room default
  if room.capacity < activity.enrollment then -0.5
  else if 3 * activity.enrollment < room.capacity then -0.4
  else if (1.5 : ℚ) * activity.enrollment < (room.capacity : ℚ) then -0.2
  else 0.3

/-- Facilitator-preference term for the activity at position `i` with gene `g`. -/
def preferenceScore (i : Nat) (g : Gene) : ℚ :=
  let activity := ACTIVITIES.getD i default
  let facilitator := FACILITATORS.getD g.fac ""
  if facilitator ∈ activity.preferred_facilitators then 0.5
  else if facilitator ∈ activity.other_facilitators then 0.2
  else -0.1

/-- Facilitator per-slot load term. -/
def slotLoadScore (s : Schedule) (g : Gene) : ℚ :=
  if timeFacCount s g.time g.fac = 1 then 0.2
  else if 1 < timeFacCount s g.time g.fac then -0.2
  else 0

/-- Facilitator total-load term, as written in the source:
`if total_load > 4: -0.5 elif total_load < 3: if facilitator != "Tyler" or total_load >= 2: -0.4`. -/
def totalLoadScore (facilitator : String) (total_load : Nat) : ℚ :=
  if 4 < total_load then -0.5
  else if total_load < 3 then
    (if facilitator ≠ "Tyler" ∨ 2 ≤ total_load then -0.4 else 0)
  else 0

/-- All per-activity fitness contributions of the gene `g` at position `i`. -/
def activityScore (s : Schedule) (i : Nat) (g : Gene) : ℚ :=
  roomConflictScore s g + roomSizeScore i g + preferenceScore i g + slotLoadScore s g +
    totalLoadScore (FACILITATORS.getD g.fac "") (facLoad s g.fac)

/-- Sum of the per-activity contributions over the whole schedule. -/
def perActivityFitness (s : Schedule) : ℚ :=
  (s.assignments.enum.map (fun p => activityScore s p.1 p.2)).sum

/-- Building-separation penalty summed over every pair of one activity at the earlier
time and one at the later time (given their Roman/Beach flags). -/
def pairPenalty (bs1 bs2 : List Bool) : ℚ :=
  (bs1.map (fun b1 => (bs2.map (fun b2 => if b1 ≠ b2 then (-0.4 : ℚ) else 0)).sum)).sum

/-- Consecutive-time-slot contribution for facilitator `f`:
`+0.5` per adjacent pair of used time slots, and for each such pair the
building-separation penalty over all activity combinations. -/
def consecutiveScore (s : Schedule) (f : Nat) : ℚ :=
  let sorted_times := facTimes s f
  ((List.range (sorted_times.length - 1)).map (fun i =>
    let t1 := sorted_times.getD i 0
    let t2 := sorted_times.getD (i + 1) 0
    if t2 - t1 = 1 then 0.5 + pairPenalty (rbList s t1 f) (rbList s t2 f) else 0)).sum

/-- Consecutive-slot contributions summed over all facilitators that appear. -/
def consecutiveFitness (s : Schedule) : ℚ :=
  ((facList s).map (fun f => consecutiveScore s f)).sum

/-- `next(i for i, a in enumerate(ACTIVITIES) if a.name == n)`. -/
def activityIdx (n : String) : Nat := ACTIVITIES.findIdx (fun a => a.name = n)

def sla101a_idx : Nat := activityIdx "SLA101A"
def sla101b_idx : Nat := activityIdx "SLA101B"
def sla191a_idx : Nat := activityIdx "SLA191A"
def sla191b_idx : Nat := activityIdx "SLA191B"

/-- Time index stored for the activity at catalog position `i` (tuple component 2). -/
def timeOf (s : Schedule) (i : Nat) : Nat := (s.assignments.getD i default).time

/-- Room index stored for the activity at catalog position `i` (tuple component 1). -/
def roomOf (s : Schedule) (i : Nat) : Nat := (s.assignments.getD i default).room

/-- `abs(t1 - t2)` on Python ints. -/
def timeDiff (t1 t2 : Nat) : Nat := ((t1 : ℤ) - (t2 : ℤ)).natAbs

/-- The four SLA101/SLA191 within-group spacing contributions. -/
def slaSectionScore (s : Schedule) : ℚ :=
  (if 4 < timeDiff (timeOf s sla101a_idx) (timeOf s sla101b_idx) then 0.5 else 0) +
  (if timeOf s sla101a_idx = timeOf s sla101b_idx then -0.5 else 0) +
  (if 4 < timeDiff (timeOf s sla191a_idx) (timeOf s sla191b_idx) then 0.5 else 0) +
  (if timeOf s sla191a_idx = timeOf s sla191b_idx then -0.5 else 0)

/-- The two (time, room) pairs of the SLA191 sections. -/
def sla191Pairs (s : Schedule) : List (Nat × Nat) :=
  [(timeOf s sla191a_idx, roomOf s sla191a_idx), (timeOf s sla191b_idx, roomOf s sla191b_idx)]

/-- The two (time, room) pairs of the SLA101 sections. -/
def sla101Pairs (s : Schedule) : List (Nat × Nat) :=
  [(timeOf s sla101a_idx, roomOf s sla101a_idx), (timeOf s sla101b_idx, roomOf s sla101b_idx)]

/-- One cross-group contribution: a SLA191 section against a SLA101 section. -/
def slaPairScoreOne (p191 p101 : Nat × Nat) : ℚ :=
  if timeDiff p191.1 p101.1 = 1 then
    0.5 + (if isRomanBeach (roomName p191.2) ≠ isRomanBeach (roomName p101.2) then
      (-0.4 : ℚ) else 0)
  else if timeDiff p191.1 p101.1 = 2 then 0.25
  else if timeDiff p191.1 p101.1 = 0 then -0.25
  else 0

/-- Cross-group contributions over all SLA191 × SLA101 section combinations. -/
def slaPairScore (s : Schedule) : ℚ :=
  ((sla191Pairs s).map (fun p191 =>
    ((sla101Pairs s).map (fun p101 => slaPairScoreOne p191 p101)).sum)).sum

/-- `calculate_fitness`: total fitness score of a schedule
(exact-rational model of the Python float accumulation). -/
def calculate_fitness (s : Schedule) : ℚ :=
  perActivityFitness s + consecutiveFitness s + slaSectionScore s + slaPairScore s

/-- The dictionary returned by `get_constraint_violations`: one count per rule category. -/
structure Violations where
  room_conflicts : Nat
  room_too_small : Nat
  room_too_large_1_5x : Nat
  room_too_large_3x : Nat
  room_good_fit : Nat
  facilitator_preferred : Nat
  facilitator_other : Nat
  facilitator_unlisted : Nat
  facilitator_single_slot : Nat
  facilitator_double_booked : Nat
  facilitator_overload_4plus : Nat
  facilitator_underload_less3 : Nat
  facilitator_consecutive_bonus : Nat
  facilitator_consecutive_building_penalty : Nat
  sla101_sections_far_apart : Nat
  sla101_sections_same_time : Nat
  sla191_sections_far_apart : Nat
  sla191_sections_same_time : Nat
  sla101_191_consecutive : Nat
  sla101_191_consecutive_building_penalty : Nat
  sla101_191_separated_1hr : Nat
  sla101_191_same_time : Nat
deriving DecidableEq

/-- Nat indicator of the room-conflict increment for gene `g`. -/
def roomConflictInd (s : Schedule) (g : Gene) : Nat :=
  if 1 < timeRoomCount s g.time g.room then 1 else 0

/-- Nat indicator of the `room_too_small` branch. -/
def roomTooSmallInd (i : Nat) (g : Gene) : Nat :=
  let activity := ACTIVITIES.getD i default
  let room := ROOMS.getD g.room default
  if room.capacity < activity.enrollment then 1 else 0

/-- Nat indicator of the `room_too_large_3x` branch. -/
def roomTooLarge3xInd (i : Nat) (g : Gene) : Nat :=
  let activity := ACTIVITIES.getD i default
  let room := ROOMS.getD g.room default
  if room.capacity < activity.enrollment then 0
  else if 3 * activity.enrollment < room.capacity then 1 else 0

/-- Nat indicator of the `room_too_large_1.5x` branch. -/
def roomTooLarge15xInd (i : Nat) (g : Gene) : Nat :=
  let activity := ACTIVITIES.getD i default
  let room := ROOMS.getD g.room default
  if room.capacity < activity.enrollment then 0
  else if 3 * activity.enrollment < room.capacity then 0
  else if (1.5 : ℚ) * activity.enrollment < (room.capacity : ℚ) then 1 else 0

/-- Nat indicator of the `room_good_fit` branch. -/
def roomGoodFitInd (i : Nat) (g : Gene) : Nat :=
  let activity := ACTIVITIES.getD i default
  let room := ROOMS.getD g.room default
  if room.capacity < activity.enrollment then 0
  else if 3 * activity.enrollment < room.capacity then 0
  else if (1.5 : ℚ) * activity.enrollment < (room.capacity : ℚ) then 0
  else 1

/-- Nat indicator of the `facilitator_preferred` branch. -/
def facPreferredInd (i : Nat) (g : Gene) : Nat :=
  let activity := ACTIVITIES.getD i default
  let facilitator := FACILITATORS.getD g.fac ""
  if facilitator ∈ activity.preferred_facilitators then 1 else 0

/-- Nat indicator of the `facilitator_other` branch. -/
def facOtherInd (i : Nat) (g : Gene) : Nat :=
  let activity := ACTIVITIES.getD i default
  let facilitator := FACILITATORS.getD g.fac ""
  if facilitator ∈ activity.preferred_facilitators then 0
  else if facilitator ∈ activity.other_facilitators then 1 else 0

/-- Nat indicator of the `facilitator_unlisted` branch. -/
def facUnlistedInd (i : Nat) (g : Gene) : Nat :=
  let activity := ACTIVITIES.getD i default
  let facilitator := FACILITATORS.getD g.fac ""
  if facilitator ∈ activity.preferred_facilitators then 0
  else if facilitator ∈ activity.other_facilitators then 0 else 1

/-- Nat indicator of the `facilitator_single_slot` branch. -/
def facSingleSlotInd (s : Schedule) (g : Gene) : Nat :=
  if timeFacCount s g.time g.fac = 1 then 1 else 0

/-- Nat indicator of the `facilitator_double_booked` branch. -/
def facDoubleBookedInd (s : Schedule) (g : Gene) : Nat :=
  if timeFacCount s g.time g.fac = 1 then 0
  else if 1 < timeFacCount s g.time g.fac then 1 else 0

/-- Nat indicator of the `facilitator_overload_4plus` branch. -/
def facOverloadInd (s : Schedule) (g : Gene) : Nat :=
  if 4 < facLoad s g.fac then 1 else 0

/-- Nat indicator of the `facilitator_underload_less3` branch. -/
def facUnderloadInd (s : Schedule) (g : Gene) : Nat :=
  if 4 < facLoad s g.fac then 0
  else if facLoad s g.fac < 3 then
    (if FACILITATORS.getD g.fac "" ≠ "Tyler" ∨ 2 ≤ facLoad s g.fac then 1 else 0)
  else 0

/-- Sum of a per-activity Nat indicator over the enumerated assignments. -/
def countOver (s : Schedule) (ind : Nat → Gene → Nat) : Nat :=
  (s.assignments.enum.map (fun p => ind p.1 p.2)).sum

/-- Number of building-separation pair increments (given Roman/Beach flags). -/
def pairPenaltyCount (bs1 bs2 : List Bool) : Nat :=
  (bs1.map (fun b1 => (bs2.map (fun b2 => if b1 ≠ b2 then 1 else 0)).sum)).sum

/-- `facilitator_consecutive_bonus` increments for facilitator `f`. -/
def consecutiveBonusCountF (s : Schedule) (f : Nat) : Nat :=
  let sorted_times := facTimes s f
  ((List.range (sorted_times.length - 1)).map (fun i =>
    if sorted_times.getD (i + 1) 0 - sorted_times.getD i 0 = 1 then 1 else 0)).sum

/-- `facilitator_consecutive_building_penalty` increments for facilitator `f`. -/
def consecutiveBuildingCountF (s : Schedule) (f : Nat) : Nat :=
  let sorted_times := facTimes s f
  ((List.range (sorted_times.length - 1)).map (fun i =>
    let t1 := sorted_times.getD i 0
    let t2 := sorted_times.getD (i + 1) 0
    if t2 - t1 = 1 then pairPenaltyCount (rbList s t1 f) (rbList s t2 f) else 0)).sum

/-- `sla101_191_consecutive` increment for one section combination. -/
def slaConsecutiveInd (p191 p101 : Nat × Nat) : Nat :=
  if timeDiff p191.1 p101.1 = 1 then 1 else 0

/-- `sla101_191_consecutive_building_penalty` increment for one section combination. -/
def slaBuildingInd (p191 p101 : Nat × Nat) : Nat :=
  if timeDiff p191.1 p101.1 = 1 then
    (if isRomanBeach (roomName p191.2) ≠ isRomanBeach (roomName p101.2) then 1 else 0)
  else 0

/-- `sla101_191_separated_1hr` increment for one section combination. -/
def slaSeparatedInd (p191 p101 : Nat × Nat) : Nat :=
  if timeDiff p191.1 p101.1 = 1 then 0
  else if timeDiff p191.1 p101.1 = 2 then 1 else 0

/-- `sla101_191_same_time` increment for one section combination. -/
def slaSameTimeInd (p191 p101 : Nat × Nat) : Nat :=
  if timeDiff p191.1 p101.1 = 1 then 0
  else if timeDiff p191.1 p101.1 = 2 then 0
  else if timeDiff p191.1 p101.1 = 0 then 1 else 0

/-- Sum of a per-combination counter over the SLA191 × SLA101 section combinations. -/
def slaPairCount (s : Schedule) (ind : Nat × Nat → Nat × Nat → Nat) : Nat :=
  ((sla191Pairs s).map (fun p191 => ((sla101Pairs s).map (fun p101 => ind p191 p101)).sum)).sum

/-- `get_constraint_violations`: the per-rule occurrence counts of a schedule. -/
def get_constraint_violations (s : Schedule) : Violations where
  room_conflicts := countOver s (fun _ g => roomConflictInd s g)
  room_too_small := countOver s roomTooSmallInd
  room_too_large_1_5x := countOver s roomTooLarge15xInd
  room_too_large_3x := countOver s roomTooLarge3xInd
  room_good_fit := countOver s roomGoodFitInd
  facilitator_preferred := countOver s facPreferredInd
  facilitator_other := countOver s facOtherInd
  facilitator_unlisted := countOver s facUnlistedInd
  facilitator_single_slot := countOver s (fun _ g => facSingleSlotInd s g)
  facilitator_double_booked := countOver s (fun _ g => facDoubleBookedInd s g)
  facilitator_overload_4plus := countOver s (fun _ g => facOverloadInd s g)
  facilitator_underload_less3 := countOver s (fun _ g => facUnderloadInd s g)
  facilitator_consecutive_bonus := ((facList s).map (fun f => consecutiveBonusCountF s f)).sum
  facilitator_consecutive_building_penalty :=
    ((facList s).map (fun f => consecutiveBuildingCountF s f)).sum
  sla101_sections_far_apart :=
    if 4 < timeDiff (timeOf s sla101a_idx) (timeOf s sla101b_idx) then 1 else 0
  sla101_sections_same_time :=
    if timeOf s sla101a_idx = timeOf s sla101b_idx then 1 else 0
  sla191_sections_far_apart :=
    if 4 < timeDiff (timeOf s sla191a_idx) (timeOf s sla191b_idx) then 1 else 0
  sla191_sections_same_time :=
    if timeOf s sla191a_idx = timeOf s sla191b_idx then 1 else 0
  sla101_191_consecutive := slaPairCount s slaConsecutiveInd
  sla101_191_consecutive_building_penalty := slaPairCount s slaBuildingInd
  sla101_191_separated_1hr := slaPairCount s slaSeparatedInd
  sla101_191_same_time := slaPairCount s slaSameTimeInd

/-- `create_random_schedule`: each raw draw `v` for a catalog of size `n` is embedded
as the in-range value `v % n`; `draws i` supplies the (room, time, facilitator) raw
values for activity `i`. -/
def create_random_schedule (draws : Nat → Nat × Nat × Nat) : Schedule :=
  ⟨(List.range ACTIVITIES.length).map (fun i =>
    ⟨i, (draws i).1 % ROOMS.length, (draws i).2.1 % TIMES.length,
      (draws i).2.2 % FACILITATORS.length⟩)⟩

/-- `mutate`: per gene `i`, `randFloat i` models `rng.random()`, `randType i % 3` models
`rng.integers(0, 3)`, and `randVal i % n` models the in-range resampling draw. -/
def mutate (s : Schedule) (mutation_rate : ℚ) (randFloat : Nat → ℚ)
    (randType : Nat → Nat) (randVal : Nat → Nat) : Schedule :=
  ⟨s.assignments.enum.map (fun p =>
    if randFloat p.1 < mutation_rate then
      let mutation_type := randType p.1 % 3
      if mutation_type = 0 then { p.2 with room := randVal p.1 % ROOMS.length }
      else if mutation_type = 1 then { p.2 with time := randVal p.1 % TIMES.length }
      else { p.2 with fac := randVal p.1 % FACILITATORS.length }
    else p.2)⟩

/-- `max(tournament_indices, key=lambda i: fitness_scores[i])`: Python `max` keeps the
first element among ties and replaces only on a strictly greater key. -/
def maxByKey (key : Nat → ℚ) : List Nat → Nat
  | [] => 0
  | x :: xs => xs.foldl (fun b i => if key b < key i then i else b) x

/-- `tournament_selection`, with the sampled indices supplied explicitly. -/
def tournament_selection (population : List Schedule) (fitness_scores : List ℚ)
    (tournament_indices : List Nat) : Schedule :=
  population.getD (maxByKey (fun i => fitness_scores.getD i 0) tournament_indices)
    ⟨[]⟩

/-- `crossover`: the raw draw `v` models `rng.integers(1, len(ACTIVITIES))` as
`1 + v % (len(ACTIVITIES) - 1)`. -/
def crossover (parent1 parent2 : Schedule) (v : Nat) : Schedule × Schedule :=
  let crossover_point := 1 + v % (ACTIVITIES.length - 1)
  (⟨parent1.assignments.take crossover_point ++ parent2.assignments.drop crossover_point⟩,
   ⟨parent2.assignments.take crossover_point ++ parent1.assignments.drop crossover_point⟩)

/-- A structurally legal chromosome: one gene per activity, every index within its
catalog bounds. -/
def ValidSchedule (s : Schedule) : Prop :=
  s.assignments.length = ACTIVITIES.length ∧
    ∀ g ∈ s.assignments, g.room < ROOMS.length ∧ g.time < TIMES.length ∧
      g.fac < FACILITATORS.length

instance (s : Schedule) : Decidable (ValidSchedule s) := by
  unfold ValidSchedule; infer_instance

/-- Fitness comparison used by `np.argsort(fitness_scores)` (ascending order). -/
def fitLE (a b : Schedule) : Prop := calculate_fitness a ≤ calculate_fitness b

instance : DecidableRel fitLE := fun a b => by unfold fitLE; infer_instance

instance : IsTotal Schedule fitLE := ⟨fun a b => le_total (calculate_fitness a) (calculate_fitness b)⟩

instance : IsTrans Schedule fitLE :=
  ⟨fun _ _ _ hab hbc => le_trans hab hbc⟩

/-- The population arranged in ascending fitness order (`np.argsort`, with the
chromosomes substituted for their indices). -/
def sortByFitness (pop : List Schedule) : List Schedule := List.insertionSort fitLE pop

/-- `population[idx] for idx in np.argsort(fitness_scores)[-elite_count:]` with
`elite_count = POPULATION_SIZE // 10`: the top tenth of the population by fitness. -/
def elites (pop : List Schedule) : List Schedule :=
  (sortByFitness pop).drop (pop.length - POPULATION_SIZE / 10)

/-- One population replacement of the generational loop: the elites followed by the
bred offspring (whose construction consumes randomness and is supplied here as data). -/
def next_generation (pop offspring : List Schedule) : List Schedule :=
  elites pop ++ offspring

/-- Python `max` over a nonempty list of scores (`max(fitness_scores)`);
`0` for the empty list, which never occurs in the loop. -/
def listMax : List ℚ → ℚ
  | [] => 0
  | x :: xs => xs.foldl max x

/-- Best fitness of a population. -/
def bestFitness (pop : List Schedule) : ℚ := listMax (pop.map calculate_fitness)

/-- `generation >= 1000` safety bound of the loop. -/
def MAX_GENERATIONS : Nat := 1000

/-- The generational `while True` loop of `run_genetic_algorithm`, with the
per-generation data flow abstracted into `step` (population replacement, average
tracking, mutation-rate adjustment) and the convergence test
`generation >= MIN_GENERATIONS and improvement < IMPROVEMENT_THRESHOLD and improvement >= 0`
abstracted into `conv`.  `rem` maintains the invariant `rem = MAX_GENERATIONS - generation`
(so the `rem = 0` fallthrough is unreachable from the entry point `gaLoop`); each
iteration first tests convergence, then steps, increments the generation counter and
stops if the safety bound is reached. -/
def gaLoopAux {σ : Type} (step : σ → σ) (conv : Nat → σ → Bool) :
    Nat → Nat → σ → Nat × σ
  | rem, generation, st =>
    if conv generation st then (generation, st)
    else
      match rem with
      | 0 => (generation, st)
      | rem + 1 =>
        let st2 := step st
        if rem = 0 then (generation + 1, st2)
        else gaLoopAux step conv rem (generation + 1) st2

/-- Entry point of the generational loop: generation starts at `0`. -/
def gaLoop {σ : Type} (step : σ → σ) (conv : Nat → σ → Bool) (st : σ) : Nat × σ :=
  gaLoopAux step conv MAX_GENERATIONS 0 st

/-- The engine's configuration parameters. -/
structure GAConfig where
  population_size : Nat
  initial_mutation_rate : ℚ
  min_generations : Nat
  improvement_threshold : ℚ
  tournament_size : Nat
deriving DecidableEq

/-- The rejection cases the specification describes for configuration validation. -/
inductive ConfigurationError where
  | tournamentLargerThanPopulation
  | populationTooSmall
  | emptyCatalog
deriving DecidableEq

/-- Construction of the engine's configuration as the source performs it: the module
binds the parameter constants directly (lines 77–81 of `genetic_scheduler.py`) and
contains no validation code and no exception class, so every configuration value is
accepted. -/
def buildConfig (c : GAConfig) : Except ConfigurationError GAConfig := Except.ok c

/-- The configuration values the source binds. -/
def GA_CONFIG : GAConfig :=
  ⟨POPULATION_SIZE, 0.01, MIN_GENERATIONS, 0.01, TOURNAMENT_SIZE⟩

/-- The (room, time, facilitator) components of a gene — everything except the stored
redundant activity-index field. -/
def projGene (g : Gene) : Nat × Nat × Nat := (g.room, g.time, g.fac)

/-- A gene with the stored activity-index field zeroed. -/
def zeroAct (g : Gene) : Gene := ⟨0, g.room, g.time, g.fac⟩

/-- A concrete well-formed schedule used as a test input: facilitator index 7
("Tyler") oversees exactly the two activities `SLA101A` and `SLA101B`. -/
def sampleSchedule : Schedule :=
  ⟨[⟨0, 0, 0, 7⟩, ⟨1, 1, 1, 7⟩, ⟨2, 2, 2, 0⟩, ⟨3, 3, 3, 0⟩, ⟨4, 4, 4, 0⟩,
    ⟨5, 5, 5, 1⟩, ⟨6, 6, 0, 1⟩, ⟨7, 7, 1, 1⟩, ⟨8, 8, 2, 2⟩, ⟨9, 0, 3, 2⟩, ⟨10, 1, 4, 2⟩]⟩

/-- A second concrete well-formed schedule, used as the other crossover parent. -/
def sampleSchedule2 : Schedule :=
  ⟨[⟨0, 8, 5, 9⟩, ⟨1, 7, 4, 8⟩, ⟨2, 6, 3, 7⟩, ⟨3, 5, 2, 6⟩, ⟨4, 4, 1, 5⟩,
    ⟨5, 3, 0, 4⟩, ⟨6, 2, 5, 3⟩, ⟨7, 1, 4, 2⟩, ⟨8, 0, 3, 1⟩, ⟨9, 8, 2, 0⟩, ⟨10, 7, 1, 9⟩]⟩

/-- `sampleSchedule` with every stored activity-index field overwritten by `42`:
it agrees with `sampleSchedule` on every (room, time, facilitator) component. -/
def sampleScrambled : Schedule :=
  ⟨[⟨42, 0, 0, 7⟩, ⟨42, 1, 1, 7⟩, ⟨42, 2, 2, 0⟩, ⟨42, 3, 3, 0⟩, ⟨42, 4, 4, 0⟩,
    ⟨42, 5, 5, 1⟩, ⟨42, 6, 0, 1⟩, ⟨42, 7, 1, 1⟩, ⟨42, 8, 2, 2⟩, ⟨42, 0, 3, 2⟩, ⟨42, 1, 4, 2⟩]⟩

/-- A configuration the specification says must be rejected
(`population_size < 2` and `tournament_size > population_size`). -/
def invalidConfig : GAConfig := ⟨1, 0.01, 100, 0.01, 5⟩

/-! ### Helper lemmas: sums of indicator terms -/

/-- A sum of a constant-or-zero term is the constant times the occurrence count. -/
theorem sum_ite_eq_mul_count {α : Type} (l : List α) (p : α → Prop) [DecidablePred p]
    (c : ℚ) :
    (l.map (fun x => if p x then c else 0)).sum =
      c * (((l.map (fun x => if p x then (1 : Nat) else 0)).sum : Nat) : ℚ) := by
  induction l with
  | nil => simp
  | cons a t ih =>
    simp only [List.map_cons, List.sum_cons, ih]
    split_ifs <;> push_cast <;> ring

/-- The building-separation pair penalty is `−0.4` times the pair count. -/
theorem pairPenalty_eq (bs1 bs2 : List Bool) :
    pairPenalty bs1 bs2 = -0.4 * ((pairPenaltyCount bs1 bs2 : Nat) : ℚ) := by
  unfold pairPenalty pairPenaltyCount
  induction bs1 with
  | nil => simp
  | cons b t ih =>
    simp only [List.map_cons, List.sum_cons, ih]
    rw [sum_ite_eq_mul_count bs2 (fun b2 => b ≠ b2) (-0.4 : ℚ)]
    push_cast
    ring

/-! ### Pointwise decomposition of the per-activity fitness terms -/

theorem roomConflictScore_eq (s : Schedule) (g : Gene) :
    roomConflictScore s g = -0.5 * ((roomConflictInd s g : Nat) : ℚ) := by
  simp only [roomConflictScore, roomConflictInd]
  split_ifs <;> norm_num

theorem roomSizeScore_eq (i : Nat) (g : Gene) :
    roomSizeScore i g =
      -0.5 * ((roomTooSmallInd i g : Nat) : ℚ) - 0.4 * ((roomTooLarge3xInd i g : Nat) : ℚ)
      - 0.2 * ((roomTooLarge15xInd i g : Nat) : ℚ) + 0.3 * ((roomGoodFitInd i g : Nat) : ℚ) := by
  simp only [roomSizeScore, roomTooSmallInd, roomTooLarge3xInd, roomTooLarge15xInd,
    roomGoodFitInd]
  split_ifs <;> norm_num

theorem preferenceScore_eq (i : Nat) (g : Gene) :
    preferenceScore i g =
      0.5 * ((facPreferredInd i g : Nat) : ℚ) + 0.2 * ((facOtherInd i g : Nat) : ℚ)
      - 0.1 * ((facUnlistedInd i g : Nat) : ℚ) := by
  simp only [preferenceScore, facPreferredInd, facOtherInd, facUnlistedInd]
  split_ifs <;> norm_num

theorem slotLoadScore_eq (s : Schedule) (g : Gene) :
    slotLoadScore s g =
      0.2 * ((facSingleSlotInd s g : Nat) : ℚ) - 0.2 * ((facDoubleBookedInd s g : Nat) : ℚ) := by
  simp only [slotLoadScore, facSingleSlotInd, facDoubleBookedInd]
  split_ifs <;> norm_num

theorem totalLoadScore_eq (s : Schedule) (g : Gene) :
    totalLoadScore (FACILITATORS.getD g.fac "") (facLoad s g.fac) =
      -0.5 * ((facOverloadInd s g : Nat) : ℚ) - 0.4 * ((facUnderloadInd s g : Nat) : ℚ) := by
  simp only [totalLoadScore, facOverloadInd, facUnderloadInd]
  split_ifs <;> norm_num

theorem activityScore_eq (s : Schedule) (i : Nat) (g : Gene) :
    activityScore s i g =
      -0.5 * ((roomConflictInd s g : Nat) : ℚ)
      - 0.5 * ((roomTooSmallInd i g : Nat) : ℚ) - 0.4 * ((roomTooLarge3xInd i g : Nat) : ℚ)
      - 0.2 * ((roomTooLarge15xInd i g : Nat) : ℚ) + 0.3 * ((roomGoodFitInd i g : Nat) : ℚ)
      + 0.5 * ((facPreferredInd i g : Nat) : ℚ) + 0.2 * ((facOtherInd i g : Nat) : ℚ)
      - 0.1 * ((facUnlistedInd i g : Nat) : ℚ)
      + 0.2 * ((facSingleSlotInd s g : Nat) : ℚ) - 0.2 * ((facDoubleBookedInd s g : Nat) : ℚ)
      - 0.5 * ((facOverloadInd s g : Nat) : ℚ) - 0.4 * ((facUnderloadInd s g : Nat) : ℚ) := by
  unfold activityScore
  rw [roomConflictScore_eq, roomSizeScore_eq, preferenceScore_eq, slotLoadScore_eq,
    totalLoadScore_eq]
  ring

/-- The per-activity fitness sum decomposes into the weighted per-activity counts. -/
theorem perActivity_decomp (s : Schedule) (l : List (Nat × Gene)) :
    (l.map (fun p => activityScore s p.1 p.2)).sum =
      -0.5 * (((l.map (fun p => roomConflictInd s p.2)).sum : Nat) : ℚ)
      - 0.5 * (((l.map (fun p => roomTooSmallInd p.1 p.2)).sum : Nat) : ℚ)
      - 0.4 * (((l.map (fun p => roomTooLarge3xInd p.1 p.2)).sum : Nat) : ℚ)
      - 0.2 * (((l.map (fun p => roomTooLarge15xInd p.1 p.2)).sum : Nat) : ℚ)
      + 0.3 * (((l.map (fun p => roomGoodFitInd p.1 p.2)).sum : Nat) : ℚ)
      + 0.5 * (((l.map (fun p => facPreferredInd p.1 p.2)).sum : Nat) : ℚ)
      + 0.2 * (((l.map (fun p => facOtherInd p.1 p.2)).sum : Nat) : ℚ)
      - 0.1 * (((l.map (fun p => facUnlistedInd p.1 p.2)).sum : Nat) : ℚ)
      + 0.2 * (((l.map (fun p => facSingleSlotInd s p.2)).sum : Nat) : ℚ)
      - 0.2 * (((l.map (fun p => facDoubleBookedInd s p.2)).sum : Nat) : ℚ)
      - 0.5 * (((l.map (fun p => facOverloadInd s p.2)).sum : Nat) : ℚ)
      - 0.4 * (((l.map (fun p => facUnderloadInd s p.2)).sum : Nat) : ℚ) := by
  induction l with
  | nil => simp
  | cons a t ih =>
    simp only [List.map_cons, List.sum_cons]
    rw [activityScore_eq, ih]
    push_cast
    ring

/-- `perActivityFitness` in terms of the violation counts. -/
theorem perActivityFitness_eq (s : Schedule) :
    perActivityFitness s =
      -0.5 * ((countOver s (fun _ g => roomConflictInd s g) : Nat) : ℚ)
      - 0.5 * ((countOver s roomTooSmallInd : Nat) : ℚ)
      - 0.4 * ((countOver s roomTooLarge3xInd : Nat) : ℚ)
      - 0.2 * ((countOver s roomTooLarge15xInd : Nat) : ℚ)
      + 0.3 * ((countOver s roomGoodFitInd : Nat) : ℚ)
      + 0.5 * ((countOver s facPreferredInd : Nat) : ℚ)
      + 0.2 * ((countOver s facOtherInd : Nat) : ℚ)
      - 0.1 * ((countOver s facUnlistedInd : Nat) : ℚ)
      + 0.2 * ((countOver s (fun _ g => facSingleSlotInd s g) : Nat) : ℚ)
      - 0.2 * ((countOver s (fun _ g => facDoubleBookedInd s g) : Nat) : ℚ)
      - 0.5 * ((countOver s (fun _ g => facOverloadInd s g) : Nat) : ℚ)
      - 0.4 * ((countOver s (fun _ g => facUnderloadInd s g) : Nat) : ℚ) := by
  unfold perActivityFitness countOver
  exact perActivity_decomp s s.assignments.enum

/-- Auxiliary form of the consecutive-slot decomposition over an arbitrary index list. -/
theorem consecutive_decomp_aux (s : Schedule) (f : Nat) (ts : List Nat) (l : List Nat) :
    (l.map (fun i =>
      if ts.getD (i + 1) 0 - ts.getD i 0 = 1 then
        (0.5 : ℚ) + pairPenalty (rbList s (ts.getD i 0) f) (rbList s (ts.getD (i + 1) 0) f)
      else 0)).sum =
      0.5 * (((l.map (fun i =>
        if ts.getD (i + 1) 0 - ts.getD i 0 = 1 then (1 : Nat) else 0)).sum : Nat) : ℚ)
      - 0.4 * (((l.map (fun i =>
        if ts.getD (i + 1) 0 - ts.getD i 0 = 1 then
          pairPenaltyCount (rbList s (ts.getD i 0) f) (rbList s (ts.getD (i + 1) 0) f)
        else 0)).sum : Nat) : ℚ) := by
  induction l with
  | nil => simp
  | cons a t ih =>
    simp only [List.map_cons, List.sum_cons, ih]
    split_ifs with h
    · rw [pairPenalty_eq]
      push_cast
      ring
    · push_cast
      ring

/-- One facilitator's consecutive-slot contribution in terms of its counts. -/
theorem consecutiveScore_eq (s : Schedule) (f : Nat) :
    consecutiveScore s f =
      0.5 * ((consecutiveBonusCountF s f : Nat) : ℚ)
      - 0.4 * ((consecutiveBuildingCountF s f : Nat) : ℚ) :=
  consecutive_decomp_aux s f (facTimes s f) (List.range ((facTimes s f).length - 1))

/-- The whole consecutive-slot fitness part in terms of the two counts. -/
theorem consecutiveFitness_eq (s : Schedule) :
    consecutiveFitness s =
      0.5 * ((((facList s).map (fun f => consecutiveBonusCountF s f)).sum : Nat) : ℚ)
      - 0.4 * ((((facList s).map (fun f => consecutiveBuildingCountF s f)).sum : Nat) : ℚ) := by
  unfold consecutiveFitness
  generalize facList s = l
  induction l with
  | nil => simp
  | cons a t ih =>
    simp only [List.map_cons, List.sum_cons, ih]
    rw [consecutiveScore_eq]
    push_cast
    ring

/-- One SLA191 × SLA101 combination contribution in terms of its counts. -/
theorem slaPairScoreOne_eq (p191 p101 : Nat × Nat) :
    slaPairScoreOne p191 p101 =
      0.5 * ((slaConsecutiveInd p191 p101 : Nat) : ℚ)
      - 0.4 * ((slaBuildingInd p191 p101 : Nat) : ℚ)
      + 0.25 * ((slaSeparatedInd p191 p101 : Nat) : ℚ)
      - 0.25 * ((slaSameTimeInd p191 p101 : Nat) : ℚ) := by
  simp only [slaPairScoreOne, slaConsecutiveInd, slaBuildingInd, slaSeparatedInd,
    slaSameTimeInd]
  split_ifs <;> norm_num

/-- The SLA cross-group fitness part in terms of the four counts. -/
theorem slaPairScore_eq (s : Schedule) :
    slaPairScore s =
      0.5 * ((slaPairCount s slaConsecutiveInd : Nat) : ℚ)
      - 0.4 * ((slaPairCount s slaBuildingInd : Nat) : ℚ)
      + 0.25 * ((slaPairCount s slaSeparatedInd : Nat) : ℚ)
      - 0.25 * ((slaPairCount s slaSameTimeInd : Nat) : ℚ) := by
  simp only [slaPairScore, slaPairCount, sla191Pairs, sla101Pairs, List.map_cons,
    List.map_nil, List.sum_cons, List.sum_nil, slaPairScoreOne_eq]
  push_cast
  ring

/-- The SLA within-group fitness part in terms of the four indicator counts. -/
theorem slaSectionScore_eq (s : Schedule) :
    slaSectionScore s =
      0.5 * (((if 4 < timeDiff (timeOf s sla101a_idx) (timeOf s sla101b_idx)
          then (1 : Nat) else 0) : Nat) : ℚ)
      - 0.5 * (((if timeOf s sla101a_idx = timeOf s sla101b_idx
          then (1 : Nat) else 0) : Nat) : ℚ)
      + 0.5 * (((if 4 < timeDiff (timeOf s sla191a_idx) (timeOf s sla191b_idx)
          then (1 : Nat) else 0) : Nat) : ℚ)
      - 0.5 * (((if timeOf s sla191a_idx = timeOf s sla191b_idx
          then (1 : Nat) else 0) : Nat) : ℚ) := by
  unfold slaSectionScore
  split_ifs <;> norm_num

/-- C2: `calculate_fitness(schedule)` equals the linear combination of the counts
returned by `get_constraint_violations(schedule)` with the per-rule weights of the
specification, for every schedule. -/
theorem fitness_eq_weighted_violations (s : Schedule) :
    calculate_fitness s =
      -0.5 * ((get_constraint_violations s).room_conflicts : ℚ)
      - 0.5 * ((get_constraint_violations s).room_too_small : ℚ)
      - 0.4 * ((get_constraint_violations s).room_too_large_3x : ℚ)
      - 0.2 * ((get_constraint_violations s).room_too_large_1_5x : ℚ)
      + 0.3 * ((get_constraint_violations s).room_good_fit : ℚ)
      + 0.5 * ((get_constraint_violations s).facilitator_preferred : ℚ)
      + 0.2 * ((get_constraint_violations s).facilitator_other : ℚ)
      - 0.1 * ((get_constraint_violations s).facilitator_unlisted : ℚ)
      + 0.2 * ((get_constraint_violations s).facilitator_single_slot : ℚ)
      - 0.2 * ((get_constraint_violations s).facilitator_double_booked : ℚ)
      - 0.5 * ((get_constraint_violations s).facilitator_overload_4plus : ℚ)
      - 0.4 * ((get_constraint_violations s).facilitator_underload_less3 : ℚ)
      + 0.5 * ((get_constraint_violations s).facilitator_consecutive_bonus : ℚ)
      - 0.4 * ((get_constraint_violations s).facilitator_consecutive_building_penalty : ℚ)
      + 0.5 * ((get_constraint_violations s).sla101_sections_far_apart : ℚ)
      - 0.5 * ((get_constraint_violations s).sla101_sections_same_time : ℚ)
      + 0.5 * ((get_constraint_violations s).sla191_sections_far_apart : ℚ)
      - 0.5 * ((get_constraint_violations s).sla191_sections_same_time : ℚ)
      + 0.5 * ((get_constraint_violations s).sla101_191_consecutive : ℚ)
      - 0.4 * ((get_constraint_violations s).sla101_191_consecutive_building_penalty : ℚ)
      + 0.25 * ((get_constraint_violations s).sla101_191_separated_1hr : ℚ)
      - 0.25 * ((get_constraint_violations s).sla101_191_same_time : ℚ) := by
  simp only [get_constraint_violations]
  unfold calculate_fitness
  rw [perActivityFitness_eq, consecutiveFitness_eq, slaSectionScore_eq, slaPairScore_eq]
  ring

/-! ### C1: the facilitator total-load rule -/

/-- C1 counterexample: in `sampleSchedule`, facilitator index 7 is the distinguished
exception name "Tyler" and oversees exactly 2 activities (total ≥ 2), yet the code's
total-load rule charges it −0.4 — the claim says no penalty applies there. -/
theorem tylerLoadTwo_penalized :
    FACILITATORS.getD 7 "" = "Tyler" ∧ facLoad sampleSchedule 7 = 2 ∧
      totalLoadScore (FACILITATORS.getD 7 "") (facLoad sampleSchedule 7) = -0.4 ∧
      totalLoadScore (FACILITATORS.getD 7 "") (facLoad sampleSchedule 7) ≠ 0 := by
  refine ⟨rfl, by decide, ?_, ?_⟩ <;> norm_num [totalLoadScore, facLoad, sampleSchedule]

/-- C1 (amended): for every schedule and facilitator index, the total-load rule
contributes −0.5 per activity when the facilitator's total is above 4; −0.4 when the
total is below 3, *except* that when the facilitator is "Tyler" and the total is
below 2 no penalty applies; totals of exactly 3 or 4 contribute nothing. -/
theorem totalLoad_rule (s : Schedule) (f : Nat) :
    (4 < facLoad s f →
      totalLoadScore (FACILITATORS.getD f "") (facLoad s f) = -0.5) ∧
    (facLoad s f < 3 → ¬(FACILITATORS.getD f "" = "Tyler" ∧ facLoad s f < 2) →
      totalLoadScore (FACILITATORS.getD f "") (facLoad s f) = -0.4) ∧
    (FACILITATORS.getD f "" = "Tyler" → facLoad s f < 2 →
      totalLoadScore (FACILITATORS.getD f "") (facLoad s f) = 0) ∧
    (facLoad s f = 3 ∨ facLoad s f = 4 →
      totalLoadScore (FACILITATORS.getD f "") (facLoad s f) = 0) := by
  unfold totalLoadScore
  refine ⟨fun h => ?_, fun h hexc => ?_, fun hty h => ?_, fun h => ?_⟩
  · rw [if_pos h]
  · rw [if_neg (by omega), if_pos h, if_pos ?_]
    rcases Decidable.em (FACILITATORS.getD f "" = "Tyler") with he | he
    · have h2 : ¬(facLoad s f < 2) := fun hlt => hexc ⟨he, hlt⟩
      right
      omega
    · left
      exact he
  · have hnot : ¬(FACILITATORS.getD f "" ≠ "Tyler" ∨ 2 ≤ facLoad s f) := by
      push_neg
      exact ⟨hty, by omega⟩
    rw [if_neg (by omega), if_pos (by omega), if_neg hnot]
  · rcases h with h | h <;> rw [h] <;> rfl

/-- Witness for `totalLoad_rule`: in `sampleSchedule`, facilitator 7 ("Tyler") has
total 2 (penalized −0.4) and facilitator 0 ("Lock") has total exactly 3 (no
adjustment). -/
theorem totalLoad_rule_witness :
    (facLoad sampleSchedule 7 < 3 ∧
      ¬(FACILITATORS.getD 7 "" = "Tyler" ∧ facLoad sampleSchedule 7 < 2) ∧
      totalLoadScore (FACILITATORS.getD 7 "") (facLoad sampleSchedule 7) = -0.4) ∧
    (facLoad sampleSchedule 0 = 3 ∧
      totalLoadScore (FACILITATORS.getD 0 "") (facLoad sampleSchedule 0) = 0) :=
  ⟨⟨by decide, by decide,
    (totalLoad_rule sampleSchedule 7).2.1 (by decide) (by decide)⟩,
   ⟨by decide, (totalLoad_rule sampleSchedule 0).2.2.2 (Or.inl (by decide))⟩⟩

/-! ### C7: configuration validation -/

/-- C7 counterexample: the source performs no construction-time validation — it binds
its parameters as plain module constants and contains no `ConfigurationError` — so a
configuration with `population_size = 1 < 2` and `tournament_size = 5 > population_size`,
which the claim says must be rejected, is accepted. -/
theorem invalidConfig_accepted :
    invalidConfig.population_size < 2 ∧
      invalidConfig.population_size < invalidConfig.tournament_size ∧
      buildConfig invalidConfig = Except.ok invalidConfig :=
  ⟨by decide, by decide, rfl⟩

/-- C7 (amended): the code performs no configuration validation at all — construction
accepts every configuration (there is no rejection case and no error raised). -/
theorem buildConfig_accepts_everything (c : GAConfig) : buildConfig c = Except.ok c := rfl

/-! ### C9: mutation with rate 0.0 is the identity on genes -/

/-- C9: for every input chromosome and every random stream (the values of
`rng.random()` are non-negative), `mutate` with mutation rate `0.0` returns a
chromosome whose genes are identical to the input's genes.  (The embedding is pure,
so the input chromosome itself is never modified.) -/
theorem mutate_zero_rate (s : Schedule) (randFloat : Nat → ℚ) (randType randVal : Nat → Nat)
    (h : ∀ i, 0 ≤ randFloat i) :
    (mutate s 0 randFloat randType randVal).assignments = s.assignments := by
  unfold mutate
  have hbody : ∀ p ∈ s.assignments.enum,
      (if randFloat p.1 < (0 : ℚ) then
        (if randType p.1 % 3 = 0 then { p.2 with room := randVal p.1 % ROOMS.length }
         else if randType p.1 % 3 = 1 then { p.2 with time := randVal p.1 % TIMES.length }
         else { p.2 with fac := randVal p.1 % FACILITATORS.length })
      else p.2) = Prod.snd p := by
    intro p _
    rw [if_neg (not_lt.mpr (h p.1))]
  rw [List.map_congr_left hbody, List.enum_map_snd]

/-- Witness for `mutate_zero_rate` at a concrete schedule and concrete streams. -/
theorem mutate_zero_rate_witness :
    (mutate sampleSchedule 0 (fun _ => 0.3) (fun i => i) (fun i => i + 3)).assignments =
      sampleSchedule.assignments :=
  mutate_zero_rate sampleSchedule (fun _ => 0.3) (fun i => i) (fun i => i + 3)
    (fun _ => by norm_num)

/-! ### C5: single-point crossover decomposes the children exactly -/

/-- C5: for every pair of parents with one gene per activity and every raw draw `v`
(the split point is `k = 1 + v % (N − 1)`, which ranges over `{1, …, N−1}`), the first
child is parent1's genes before `k` followed by parent2's genes from `k`, and the
second child is the complementary combination.  (The embedding is pure, so the
parents are never modified.) -/
theorem crossover_split (parent1 parent2 : Schedule) (v k : Nat)
    (hk : k = 1 + v % (ACTIVITIES.length - 1))
    (h1 : parent1.assignments.length = ACTIVITIES.length)
    (h2 : parent2.assignments.length = ACTIVITIES.length) :
    1 ≤ k ∧ k ≤ ACTIVITIES.length - 1 ∧
    (crossover parent1 parent2 v).1.assignments.take k = parent1.assignments.take k ∧
    (crossover parent1 parent2 v).1.assignments.drop k = parent2.assignments.drop k ∧
    (crossover parent1 parent2 v).2.assignments.take k = parent2.assignments.take k ∧
    (crossover parent1 parent2 v).2.assignments.drop k = parent1.assignments.drop k := by
  have hmod : v % (ACTIVITIES.length - 1) < ACTIVITIES.length - 1 :=
    Nat.mod_lt v (by decide)
  have hkle1 : k ≤ parent1.assignments.length := by
    rw [h1]
    omega
  have hkle2 : k ≤ parent2.assignments.length := by
    rw [h2]
    omega
  have htk1 : (parent1.assignments.take k).length = k := by
    rw [List.length_take]
    omega
  have htk2 : (parent2.assignments.take k).length = k := by
    rw [List.length_take]
    omega
  refine ⟨by omega, by omega, ?_, ?_, ?_, ?_⟩
  · show (parent1.assignments.take (1 + v % (ACTIVITIES.length - 1)) ++
      parent2.assignments.drop (1 + v % (ACTIVITIES.length - 1))).take k = _
    rw [← hk, List.take_left' htk1]
  · show (parent1.assignments.take (1 + v % (ACTIVITIES.length - 1)) ++
      parent2.assignments.drop (1 + v % (ACTIVITIES.length - 1))).drop k = _
    rw [← hk, List.drop_left' htk1]
  · show (parent2.assignments.take (1 + v % (ACTIVITIES.length - 1)) ++
      parent1.assignments.drop (1 + v % (ACTIVITIES.length - 1))).take k = _
    rw [← hk, List.take_left' htk2]
  · show (parent2.assignments.take (1 + v % (ACTIVITIES.length - 1)) ++
      parent1.assignments.drop (1 + v % (ACTIVITIES.length - 1))).drop k = _
    rw [← hk, List.drop_left' htk2]

/-- Witness for `crossover_split`: concrete parents, raw draw `7` (split point `8`). -/
theorem crossover_split_witness :
    (crossover sampleSchedule sampleSchedule2 7).1.assignments.take 8 =
      sampleSchedule.assignments.take 8 ∧
    (crossover sampleSchedule sampleSchedule2 7).1.assignments.drop 8 =
      sampleSchedule2.assignments.drop 8 :=
  ⟨(crossover_split sampleSchedule sampleSchedule2 7 8 (by decide) (by decide)
      (by decide)).2.2.1,
   (crossover_split sampleSchedule sampleSchedule2 7 8 (by decide) (by decide)
      (by decide)).2.2.2.1⟩

/-! ### C4: every generated or bred chromosome is structurally valid -/

theorem create_random_schedule_valid (draws : Nat → Nat × Nat × Nat) :
    ValidSchedule (create_random_schedule draws) := by
  constructor
  · simp [create_random_schedule]
  · intro g hg
    simp only [create_random_schedule, List.mem_map, List.mem_range] at hg
    obtain ⟨i, _, rfl⟩ := hg
    exact ⟨Nat.mod_lt _ (by decide), Nat.mod_lt _ (by decide), Nat.mod_lt _ (by decide)⟩

theorem mutate_preserves_valid (s : Schedule) (rate : ℚ) (randFloat : Nat → ℚ)
    (randType randVal : Nat → Nat) (hs : ValidSchedule s) :
    ValidSchedule (mutate s rate randFloat randType randVal) := by
  obtain ⟨hlen, hmem⟩ := hs
  constructor
  · simp only [mutate, List.length_map, List.enum_length]
    exact hlen
  · intro g hg
    simp only [mutate, List.mem_map] at hg
    obtain ⟨⟨i, g0⟩, hp, rfl⟩ := hg
    obtain ⟨hi, hg0⟩ := List.mem_enum hp
    have hb : g0.room < ROOMS.length ∧ g0.time < TIMES.length ∧
        g0.fac < FACILITATORS.length := by
      refine hmem g0 ?_
      rw [hg0]
      exact List.getElem_mem hi
    dsimp only
    split_ifs
    · exact ⟨Nat.mod_lt _ (by decide), hb.2.1, hb.2.2⟩
    · exact ⟨hb.1, Nat.mod_lt _ (by decide), hb.2.2⟩
    · exact ⟨hb.1, hb.2.1, Nat.mod_lt _ (by decide)⟩
    · exact hb

theorem crossover_preserves_valid (parent1 parent2 : Schedule) (v : Nat)
    (h1 : ValidSchedule parent1) (h2 : ValidSchedule parent2) :
    ValidSchedule (crossover parent1 parent2 v).1 ∧
      ValidSchedule (crossover parent1 parent2 v).2 := by
  obtain ⟨hl1, hm1⟩ := h1
  obtain ⟨hl2, hm2⟩ := h2
  have hA : ACTIVITIES.length = 11 := rfl
  have hmod : v % (ACTIVITIES.length - 1) < ACTIVITIES.length - 1 :=
    Nat.mod_lt v (by decide)
  constructor
  · constructor
    · show (parent1.assignments.take _ ++ parent2.assignments.drop _).length = _
      simp only [List.length_append, List.length_take, List.length_drop, hl1, hl2, hA]
      omega
    · intro g hg
      rcases List.mem_append.mp hg with h | h
      · exact hm1 g (List.take_subset _ _ h)
      · exact hm2 g (List.drop_subset _ _ h)
  · constructor
    · show (parent2.assignments.take _ ++ parent1.assignments.drop _).length = _
      simp only [List.length_append, List.length_take, List.length_drop, hl1, hl2, hA]
      omega
    · intro g hg
      rcases List.mem_append.mp hg with h | h
      · exact hm2 g (List.take_subset _ _ h)
      · exact hm1 g (List.drop_subset _ _ h)

/-- C4: every chromosome produced by random initialization has one gene per activity
with in-range indices, and mutation and crossover preserve that invariant. -/
theorem chromosome_invariants :
    (∀ draws, ValidSchedule (create_random_schedule draws)) ∧
    (∀ s rate randFloat randType randVal, ValidSchedule s →
      ValidSchedule (mutate s rate randFloat randType randVal)) ∧
    (∀ parent1 parent2 v, ValidSchedule parent1 → ValidSchedule parent2 →
      ValidSchedule (crossover parent1 parent2 v).1 ∧
        ValidSchedule (crossover parent1 parent2 v).2) :=
  ⟨create_random_schedule_valid,
   mutate_preserves_valid,
   crossover_preserves_valid⟩

/-- Witness for `chromosome_invariants` at concrete inputs. -/
theorem chromosome_invariants_witness :
    ValidSchedule (create_random_schedule (fun i => (i, i + 1, 2 * i))) ∧
    ValidSchedule (mutate sampleSchedule 0.5 (fun _ => 0.25) (fun i => i) (fun i => i + 3)) ∧
    ValidSchedule (crossover sampleSchedule sampleSchedule2 7).1 :=
  ⟨chromosome_invariants.1 _,
   chromosome_invariants.2.1 sampleSchedule 0.5 (fun _ => 0.25) (fun i => i)
     (fun i => i + 3) (by decide),
   (chromosome_invariants.2.2 sampleSchedule sampleSchedule2 7 (by decide) (by decide)).1⟩

/-! ### C8: tournament selection returns a maximal member of the sampled subset -/

/-- Python `max(..., key=k)` as a fold: the result is one of the candidates and its
key is maximal among them. -/
theorem foldl_max_spec (key : Nat → ℚ) (t : List Nat) (b : Nat) :
    (t.foldl (fun acc i => if key acc < key i then i else acc) b) ∈ b :: t ∧
    key b ≤ key (t.foldl (fun acc i => if key acc < key i then i else acc) b) ∧
    ∀ i ∈ t, key i ≤ key (t.foldl (fun acc i => if key acc < key i then i else acc) b) := by
  induction t generalizing b with
  | nil => exact ⟨List.mem_singleton_self b, le_refl _, fun i hi => absurd hi (List.not_mem_nil i)⟩
  | cons x xs ih =>
    simp only [List.foldl_cons]
    set b2 := if key b < key x then x else b with hb2
    have hb2mem : b2 = x ∨ b2 = b := by
      rw [hb2]
      split_ifs <;> simp
    have hble : key b ≤ key b2 := by
      rw [hb2]
      split_ifs with h
      · exact le_of_lt h
      · exact le_refl _
    have hxle : key x ≤ key b2 := by
      rw [hb2]
      split_ifs with h
      · exact le_refl _
      · exact le_of_not_lt h
    obtain ⟨ihmem, ihb, ihall⟩ := ih b2
    refine ⟨?_, le_trans hble ihb, ?_⟩
    · rcases List.mem_cons.mp ihmem with h | h
      · rcases hb2mem with h2 | h2
        · rw [h, h2]
          exact List.mem_cons_of_mem _ (List.mem_cons_self _ _)
        · rw [h, h2]
          exact List.mem_cons_self _ _
      · exact List.mem_cons_of_mem _ (List.mem_cons_of_mem _ h)
    · intro i hi
      rcases List.mem_cons.mp hi with h | h
      · rw [h]
        exact le_trans hxle ihb
      · exact ihall i h

/-- C8: for every population, score list and sampled list of tournament indices
(`TOURNAMENT_SIZE` distinct in-range indices), `tournament_selection` returns the
chromosome at an index of the sampled subset whose score is maximal among the
sampled subset. -/
theorem tournament_selection_spec (population : List Schedule) (fitness_scores : List ℚ)
    (tournament_indices : List Nat)
    (hne : tournament_indices ≠ [])
    (hnodup : tournament_indices.Nodup)
    (hsize : tournament_indices.length = TOURNAMENT_SIZE)
    (hbound : ∀ i ∈ tournament_indices, i < population.length) :
    ∃ j ∈ tournament_indices,
      tournament_selection population fitness_scores tournament_indices =
        population.getD j ⟨[]⟩ ∧
      ∀ i ∈ tournament_indices,
        fitness_scores.getD i 0 ≤ fitness_scores.getD j 0 := by
  obtain ⟨x, xs, rfl⟩ := List.exists_cons_of_ne_nil hne
  obtain ⟨hmem, hb, hall⟩ := foldl_max_spec (fun i => fitness_scores.getD i 0) xs x
  refine ⟨maxByKey (fun i => fitness_scores.getD i 0) (x :: xs), ?_, rfl, ?_⟩
  · exact hmem
  · intro i hi
    rcases List.mem_cons.mp hi with h | h
    · rw [h]
      exact hb
    · exact hall i h

/-- Witness for `tournament_selection_spec` at a concrete population, score list and
index sample. -/
theorem tournament_selection_spec_witness :
    ∃ j ∈ [0, 1, 2, 3, 4],
      tournament_selection [sampleSchedule, sampleSchedule2, sampleScrambled,
          sampleSchedule, sampleSchedule2] [1, 5, 3, 2, 4] [0, 1, 2, 3, 4] =
        [sampleSchedule, sampleSchedule2, sampleScrambled, sampleSchedule,
          sampleSchedule2].getD j ⟨[]⟩ ∧
      ∀ i ∈ [0, 1, 2, 3, 4],
        ([1, 5, 3, 2, 4] : List ℚ).getD i 0 ≤ ([1, 5, 3, 2, 4] : List ℚ).getD j 0 :=
  tournament_selection_spec _ _ _ (by decide) (by decide) (by decide)
    (fun i hi => by fin_cases hi <;> decide)

/-! ### C3: elitism makes the per-generation best fitness non-decreasing -/

theorem le_foldl_max (xs : List ℚ) (b a : ℚ) (h : a ≤ b) : a ≤ xs.foldl max b := by
  induction xs generalizing b with
  | nil => exact h
  | cons x t ih => exact ih (max b x) (le_trans h (le_max_left b x))

theorem mem_le_foldl_max (xs : List ℚ) (b a : ℚ) (h : a ∈ xs) : a ≤ xs.foldl max b := by
  induction xs generalizing b with
  | nil => exact absurd h (List.not_mem_nil a)
  | cons x t ih =>
    rcases List.mem_cons.mp h with rfl | hmem
    · exact le_foldl_max t (max b a) a (le_max_right b a)
    · exact ih (max b x) hmem

theorem le_listMax (l : List ℚ) (a : ℚ) (h : a ∈ l) : a ≤ listMax l := by
  cases l with
  | nil => exact absurd h (List.not_mem_nil a)
  | cons x t =>
    unfold listMax
    rcases List.mem_cons.mp h with rfl | hmem
    · exact le_foldl_max t a a (le_refl a)
    · exact mem_le_foldl_max t x a hmem

theorem foldl_max_mem (xs : List ℚ) (b : ℚ) : xs.foldl max b ∈ b :: xs := by
  induction xs generalizing b with
  | nil => exact List.mem_singleton_self b
  | cons x t ih =>
    have hmem := ih (max b x)
    rcases List.mem_cons.mp hmem with h | h
    · rcases max_choice b x with h2 | h2 <;> rw [List.foldl_cons, h, h2]
      · exact List.mem_cons_self _ _
      · exact List.mem_cons_of_mem _ (List.mem_cons_self _ _)
    · exact List.mem_cons_of_mem _ (List.mem_cons_of_mem _ h)

theorem listMax_mem (l : List ℚ) (h : l ≠ []) : listMax l ∈ l := by
  cases l with
  | nil => exact absurd rfl h
  | cons x t =>
    unfold listMax
    exact foldl_max_mem t x

/-- C3: with the top `⌊P/10⌋` chromosomes by fitness copied unchanged into the next
generation before offspring are produced, the best fitness of the replaced population
is at least the best fitness of the previous one, whatever offspring fill the rest —
so the per-generation best fitness is non-decreasing throughout every run. -/
theorem bestFitness_nondecreasing (pop offspring : List Schedule)
    (hpop : pop.length = POPULATION_SIZE) :
    bestFitness pop ≤ bestFitness (next_generation pop offspring) := by
  have hperm : (sortByFitness pop).Perm pop := List.perm_insertionSort fitLE pop
  have hsorted : List.Sorted fitLE (sortByFitness pop) :=
    List.sorted_insertionSort fitLE pop
  have hlen : (sortByFitness pop).length = 500 := by
    rw [hperm.length_eq, hpop]
    rfl
  have h499 : 499 < (sortByFitness pop).length := by omega
  have hz_mem_elites : (sortByFitness pop)[499] ∈ elites pop := by
    have helit : elites pop = (sortByFitness pop).drop 450 := by
      unfold elites
      rw [hpop]
      rfl
    have hd : 49 < ((sortByFitness pop).drop 450).length := by
      rw [List.length_drop]
      omega
    have heq : ((sortByFitness pop).drop 450)[49] = (sortByFitness pop)[499] := by
      rw [List.getElem_drop]
    have hmem : ((sortByFitness pop).drop 450)[49] ∈ (sortByFitness pop).drop 450 :=
      List.getElem_mem hd
    rw [heq] at hmem
    rw [helit]
    exact hmem
  have hmax : ∀ a ∈ pop,
      calculate_fitness a ≤ calculate_fitness ((sortByFitness pop)[499]) := by
    intro a ha
    have hal : a ∈ sortByFitness pop := hperm.mem_iff.mpr ha
    obtain ⟨i, hi, rfl⟩ := List.mem_iff_getElem.mp hal
    rcases Nat.lt_or_ge i 499 with hlt | hge
    · exact hsorted.rel_get_of_lt (a := ⟨i, hi⟩) (b := ⟨499, h499⟩)
        (Fin.mk_lt_mk.mpr hlt)
    · have hieq : i = 499 := by omega
      subst hieq
      exact le_refl _
  have h1 : bestFitness pop ≤ calculate_fitness ((sortByFitness pop)[499]) := by
    unfold bestFitness
    have hne : pop.map calculate_fitness ≠ [] := by
      intro hcon
      have hcl := congrArg List.length hcon
      rw [List.length_map, hpop] at hcl
      exact absurd hcl (by decide)
    obtain ⟨a, ha, haeq⟩ := List.mem_map.mp (listMax_mem (pop.map calculate_fitness) hne)
    rw [← haeq]
    exact hmax a ha
  have h2 : calculate_fitness ((sortByFitness pop)[499]) ≤
      bestFitness (next_generation pop offspring) := by
    unfold bestFitness
    apply le_listMax
    apply List.mem_map.mpr
    refine ⟨(sortByFitness pop)[499], ?_, rfl⟩
    unfold next_generation
    exact List.mem_append.mpr (Or.inl hz_mem_elites)
  exact le_trans h1 h2

/-- Witness for `bestFitness_nondecreasing` at a concrete population of size `P`. -/
theorem bestFitness_nondecreasing_witness :
    bestFitness (List.replicate 500 sampleSchedule) ≤
      bestFitness (next_generation (List.replicate 500 sampleSchedule) []) :=
  bestFitness_nondecreasing (List.replicate 500 sampleSchedule) []
    (by rw [List.length_replicate]; rfl)

/-! ### C6: the loop stops at exactly the maximum generation count -/

theorem gaLoopAux_conv_false {σ : Type} (step : σ → σ) (conv : Nat → σ → Bool)
    (hconv : ∀ g st, conv g st = false) :
    ∀ (rem gen : Nat) (st : σ), rem + gen = MAX_GENERATIONS → 0 < rem →
      (gaLoopAux step conv rem gen st).1 = MAX_GENERATIONS := by
  intro rem
  induction rem with
  | zero => exact fun gen st _ hpos => absurd hpos (lt_irrefl 0)
  | succ r ih =>
    intro gen st hsum _
    rw [gaLoopAux, hconv gen st]
    simp only [Bool.false_eq_true, if_false]
    by_cases hr : r = 0
    · subst hr
      simp only [if_pos rfl]
      show gen + 1 = MAX_GENERATIONS
      unfold MAX_GENERATIONS at hsum ⊢
      omega
    · simp only [if_neg hr]
      exact ih (gen + 1) (step st) (by omega) (by omega)

/-- C6: whenever the convergence test never triggers, the generational loop
terminates (it is a total function) and its final generation counter is exactly the
maximum generation count, 1000. -/
theorem loop_reaches_safety_limit {σ : Type} (step : σ → σ) (conv : Nat → σ → Bool)
    (st : σ) (hconv : ∀ g s2, conv g s2 = false) :
    (gaLoop step conv st).1 = 1000 :=
  gaLoopAux_conv_false step conv hconv MAX_GENERATIONS 0 st rfl (by decide)

/-- Witness for `loop_reaches_safety_limit` with a concrete trivial state machine. -/
theorem loop_reaches_safety_limit_witness :
    (gaLoop (σ := Unit) id (fun _ _ => false) ()).1 = 1000 :=
  loop_reaches_safety_limit id (fun _ _ => false) () (fun _ _ => rfl)

/-! ### C10: `calculate_fitness` never reads the stored activity-index field -/

theorem zeroAct_room (g : Gene) : (zeroAct g).room = g.room := rfl

theorem zeroAct_time (g : Gene) : (zeroAct g).time = g.time := rfl

theorem zeroAct_fac (g : Gene) : (zeroAct g).fac = g.fac := rfl

theorem timeRoomCount_zeroAct (l : List Gene) (t r : Nat) :
    timeRoomCount ⟨l.map zeroAct⟩ t r = timeRoomCount ⟨l⟩ t r := by
  unfold timeRoomCount
  rw [List.map_map]
  rfl

theorem timeFacCount_zeroAct (l : List Gene) (t f : Nat) :
    timeFacCount ⟨l.map zeroAct⟩ t f = timeFacCount ⟨l⟩ t f := by
  unfold timeFacCount
  rw [List.map_map]
  rfl

theorem facLoad_zeroAct (l : List Gene) (f : Nat) :
    facLoad ⟨l.map zeroAct⟩ f = facLoad ⟨l⟩ f := by
  unfold facLoad
  rw [List.map_map]
  rfl

theorem facTimes_zeroAct (l : List Gene) (f : Nat) :
    facTimes ⟨l.map zeroAct⟩ f = facTimes ⟨l⟩ f := by
  unfold facTimes
  show List.insertionSort _ ((((l.map zeroAct).filter _).map _).dedup) = _
  rw [List.filter_map, List.map_map]
  rfl

theorem rbList_zeroAct (l : List Gene) (t f : Nat) :
    rbList ⟨l.map zeroAct⟩ t f = rbList ⟨l⟩ t f := by
  unfold rbList
  show ((l.map zeroAct).filter _).map _ = _
  rw [List.filter_map, List.map_map]
  have hfil : List.filter ((fun g => decide (g.time = t ∧ g.fac = f)) ∘ zeroAct) l =
      List.filter (fun g => decide (g.time = t ∧ g.fac = f)) l := by
    apply List.filter_congr
    intro g _
    rfl
  rw [hfil]
  apply List.map_congr_left
  intro g _
  simp only [Function.comp_apply]
  rw [zeroAct_room]

theorem facList_zeroAct (l : List Gene) :
    facList ⟨l.map zeroAct⟩ = facList ⟨l⟩ := by
  unfold facList
  show ((l.map zeroAct).map _).dedup = _
  rw [List.map_map]
  rfl

theorem getD_map_zeroAct (l : List Gene) (i : Nat) :
    (l.map zeroAct).getD i default = zeroAct (l.getD i default) := by
  rw [List.getD_eq_getElem?_getD, List.getD_eq_getElem?_getD, List.getElem?_map]
  cases l[i]? <;> rfl

theorem timeOf_zeroAct (l : List Gene) (i : Nat) :
    timeOf ⟨l.map zeroAct⟩ i = timeOf ⟨l⟩ i := by
  show ((l.map zeroAct).getD i default).time = ((l.getD i default)).time
  rw [getD_map_zeroAct]
  rfl

theorem roomOf_zeroAct (l : List Gene) (i : Nat) :
    roomOf ⟨l.map zeroAct⟩ i = roomOf ⟨l⟩ i := by
  show ((l.map zeroAct).getD i default).room = ((l.getD i default)).room
  rw [getD_map_zeroAct]
  rfl

theorem activityScore_zeroAct (l : List Gene) (i : Nat) (g : Gene) :
    activityScore ⟨l.map zeroAct⟩ i (zeroAct g) = activityScore ⟨l⟩ i g := by
  unfold activityScore roomConflictScore roomSizeScore preferenceScore slotLoadScore
  simp only [zeroAct_room, zeroAct_time, zeroAct_fac, timeRoomCount_zeroAct,
    timeFacCount_zeroAct, facLoad_zeroAct]

theorem perActivityFitness_zeroAct (l : List Gene) :
    perActivityFitness ⟨l.map zeroAct⟩ = perActivityFitness ⟨l⟩ := by
  unfold perActivityFitness
  show ((l.map zeroAct).enum.map _).sum = _
  rw [List.enum_map, List.map_map]
  congr 1
  apply List.map_congr_left
  intro p _
  exact activityScore_zeroAct l p.1 p.2

theorem consecutiveScore_zeroAct (l : List Gene) (f : Nat) :
    consecutiveScore ⟨l.map zeroAct⟩ f = consecutiveScore ⟨l⟩ f := by
  unfold consecutiveScore
  simp only [facTimes_zeroAct, rbList_zeroAct]

theorem consecutiveFitness_zeroAct (l : List Gene) :
    consecutiveFitness ⟨l.map zeroAct⟩ = consecutiveFitness ⟨l⟩ := by
  unfold consecutiveFitness
  rw [facList_zeroAct]
  congr 1
  apply List.map_congr_left
  intro f _
  exact consecutiveScore_zeroAct l f

theorem slaSectionScore_zeroAct (l : List Gene) :
    slaSectionScore ⟨l.map zeroAct⟩ = slaSectionScore ⟨l⟩ := by
  unfold slaSectionScore
  simp only [timeOf_zeroAct]

theorem sla191Pairs_zeroAct (l : List Gene) :
    sla191Pairs ⟨l.map zeroAct⟩ = sla191Pairs ⟨l⟩ := by
  unfold sla191Pairs
  simp only [timeOf_zeroAct, roomOf_zeroAct]

theorem sla101Pairs_zeroAct (l : List Gene) :
    sla101Pairs ⟨l.map zeroAct⟩ = sla101Pairs ⟨l⟩ := by
  unfold sla101Pairs
  simp only [timeOf_zeroAct, roomOf_zeroAct]

theorem slaPairScore_zeroAct (l : List Gene) :
    slaPairScore ⟨l.map zeroAct⟩ = slaPairScore ⟨l⟩ := by
  unfold slaPairScore
  rw [sla191Pairs_zeroAct, sla101Pairs_zeroAct]

theorem calculate_fitness_zeroAct (l : List Gene) :
    calculate_fitness ⟨l.map zeroAct⟩ = calculate_fitness ⟨l⟩ := by
  unfold calculate_fitness
  rw [perActivityFitness_zeroAct, consecutiveFitness_zeroAct, slaSectionScore_zeroAct,
    slaPairScore_zeroAct]

/-- C10: `calculate_fitness` never reads the stored first component of any assignment
tuple — two schedules agreeing on the (room, time, facilitator) components at every
position have the same fitness, whatever their first components hold. -/
theorem fitness_ignores_stored_activity_index (s1 s2 : Schedule)
    (h : s1.assignments.map projGene = s2.assignments.map projGene) :
    calculate_fitness s1 = calculate_fitness s2 := by
  have hmk : ∀ l : List Gene,
      l.map zeroAct = (l.map projGene).map (fun t => Gene.mk 0 t.1 t.2.1 t.2.2) := by
    intro l
    rw [List.map_map]
    rfl
  have hz : s1.assignments.map zeroAct = s2.assignments.map zeroAct := by
    rw [hmk, hmk, h]
  have e1 : calculate_fitness ⟨s1.assignments.map zeroAct⟩ = calculate_fitness s1 :=
    calculate_fitness_zeroAct s1.assignments
  have e2 : calculate_fitness ⟨s2.assignments.map zeroAct⟩ = calculate_fitness s2 :=
    calculate_fitness_zeroAct s2.assignments
  rw [← e1, ← e2, hz]

/-- Witness for `fitness_ignores_stored_activity_index`: `sampleScrambled` stores `42`
in every first component but agrees with `sampleSchedule` elsewhere. -/
theorem fitness_ignores_stored_activity_index_witness :
    calculate_fitness sampleSchedule = calculate_fitness sampleScrambled :=
  fitness_ignores_stored_activity_index sampleSchedule sampleScrambled (by decide)

end Sched
